import Mathlib

/-!
Verification development for the Snowflake reader-account provisioning
script (provision_reader.py). The script is a linear sequence of SQL
statements issued through a database cursor, plus pure string helpers and
an SMTP notification step. We embed it shallowly:

* Pure helpers (account_identifier_from_url, normalize_where, the SMTP
  port/TLS derivation) become pure Lean functions over strings and
  records, built on Python-faithful character-list primitives.
* Cursor-based code becomes a state-passing interpretation: an
  environment provides the database response for each executed statement
  (indexed by an execution counter, so responses may change over time,
  as they do between a failed CREATE and a re-run SHOW); the state
  accumulates the trace of issued statements, the log lines, and the
  e-mail attempts. Control effects (sys.exit, Python exceptions) are the
  three result constructors of Res.
* Statements are kept structured (inductive Stmt) and a renderer
  Stmt.sql produces the SQL text the script interpolates, so each
  constructor can be compared with the corresponding f-string in the
  source.
-/

namespace Provision

/-! ## Python-faithful string primitives (character-list based) -/

/-- Python whitespace characters recognised by str.strip / str.lstrip. -/
def isPyWS (c : Char) : Bool :=
  c == ' ' || c == '\t' || c == '\n' || c == '\r' || c == '\x0b' || c == '\x0c'

/-- Drop leading Python whitespace (str.lstrip). -/
def lstripL : List Char → List Char
  | [] => []
  | c :: cs => if isPyWS c then lstripL cs else c :: cs

/-- Python str.strip on a Lean string. -/
def pyStrip (s : String) : String :=
  String.mk ((lstripL ((lstripL s.toList).reverse)).reverse)

/-- ASCII lower-casing of one character (Python str.lower on ASCII). -/
def lowerChar (c : Char) : Char :=
  if 'A' ≤ c && c ≤ 'Z' then Char.ofNat (c.toNat + 32) else c

/-- Python str.lower on a Lean string (ASCII range). -/
def pyLower (s : String) : String :=
  String.mk (s.toList.map lowerChar)

/-- Does the second list start with the first (str.startswith)? -/
def leadsWith : List Char → List Char → Bool
  | [], _ => true
  | _ :: _, [] => false
  | a :: as, b :: bs => a == b && leadsWith as bs

/-- Does hay contain sub as a contiguous sublist (Python `sub in hay`)? -/
def containsSubL (sub : List Char) : List Char → Bool
  | [] => sub.isEmpty
  | b :: bs => leadsWith sub (b :: bs) || containsSubL sub bs

/-- Python `sub in s` on Lean strings. -/
def strContains (s sub : String) : Bool :=
  containsSubL sub.toList s.toList

/-- The part of hay before the first occurrence of sub
(Python `hay.split(sub, 1)[0]` for non-empty sub). -/
def takeBeforeSub (sub : List Char) : List Char → List Char
  | [] => []
  | c :: rest =>
    if leadsWith sub (c :: rest) then [] else c :: takeBeforeSub sub rest

/-! ## account_identifier_from_url (provision_reader.py lines 154-174) -/

/-- Strip a leading "https://" or "http://" scheme, as the source does with
startswith checks and slicing. -/
def dropSchemeL (cs : List Char) : List Char :=
  if leadsWith ("https://".toList) cs then cs.drop 8
  else if leadsWith ("http://".toList) cs then cs.drop 7
  else cs

/-- The host portion of the url: scheme stripped, then everything before the
first slash (the source's `url.split("/", 1)[0]`). -/
def hostPortion (u : String) : String :=
  String.mk (takeBeforeSub ['/'] (dropSchemeL u.toList))

/-- account_identifier_from_url from the source: strip scheme, drop path,
then drop the ".snowflakecomputing.com" suffix when present, else return the
host unchanged. -/
def account_identifier_from_url (account_url : String) : String :=
  let host := hostPortion account_url
  if strContains host ".snowflakecomputing.com" then
    String.mk (takeBeforeSub (".snowflakecomputing.com".toList) host.toList)
  else host

/-! ## normalize_where (provision_reader.py lines 327-333) -/

/-- The source's prefix test `where_val.lower().lstrip().startswith("where ")`
applied to a string. -/
def whereTestStr (s : String) : Bool :=
  leadsWith ("where ".toList) (lstripL (s.toList.map lowerChar))

/-- normalize_where from the source. The Python parameter may be None;
we model it as an Option, with `(where_val or "")` mapping none to "". -/
def normalize_where (where_val : Option String) : String :=
  let v := pyStrip (where_val.getD "")
  if v = "" then ""
  else if whereTestStr v then v
  else "WHERE " ++ v

/-! ## SMTP port/TLS derivation (provision_reader.py lines 243-248, 271-282) -/

/-- smtp section of the config. Optional keys become Options; the source
reads them with .get and defaults. -/
structure SmtpCfg where
  host : Option String := none
  port : Option Nat := none
  user : Option String := none
  password : Option String := none
  fromAddr : Option String := none
  use_tls : Option Bool := none
  use_ssl : Option Bool := none
deriving DecidableEq

/-- Line 243: `use_ssl = bool(smtp_cfg.get("use_ssl", False))`. -/
def smtpUseSSL (c : SmtpCfg) : Bool := c.use_ssl.getD false

/-- Line 244: `use_tls = bool(smtp_cfg.get("use_tls", True)) if not use_ssl
else False`. -/
def smtpUseTLS (c : SmtpCfg) : Bool :=
  if smtpUseSSL c then false else c.use_tls.getD true

/-- Lines 246-248: explicit port if configured, else 465 under SSL, else 587
under TLS, else 25. -/
def smtpPort (c : SmtpCfg) : Nat :=
  c.port.getD (if smtpUseSSL c then 465 else if smtpUseTLS c then 587 else 25)

/-- The transport mode actually used by lines 271-279: SMTP_SSL (implicit
TLS) when use_ssl; otherwise plain SMTP with starttls issued exactly when
use_tls (which line 244 already forces to False under use_ssl). -/
inductive TlsMode
  | implicitTLS
  | startTLS
  | plain
deriving DecidableEq

/-- Mode derivation mirroring the transport code at lines 271-279. -/
def smtpMode (c : SmtpCfg) : TlsMode :=
  if smtpUseSSL c then .implicitTLS
  else if smtpUseTLS c then .startTLS
  else .plain

/-- Python `a or b` on an optional string with a default
(None and "" are falsy). -/
def pyOrStr (a : Option String) (dflt : String) : String :=
  match a with
  | none => dflt
  | some x => if x = "" then dflt else x

/-! ## Structured statements

Every `cur.execute(...)` call in the source issues one of the statement
shapes below; the payloads are the strings the source interpolates into
the SQL text. `Stmt.sql` renders each constructor back to that text
(whitespace of the Python triple-quoted literals normalised to single
spaces), so the constructors can be diffed against the source. -/

inductive Stmt
  | showManagedAccounts (name : String)
  | createManagedAccount (name adminUser adminPassword : String)
  | alterShareAddAccount (share locator : String)
  | showUsers (name : String)
  | createUser (name tempPw defaultWh email : String)
  | alterUser (name email defaultWh : String)
  | selectCurrentAccount
  | createSchema (db schema : String)
  | createSecureView (db schema view srcTable whereSql : String)
  | createShare (name : String)
  | grantUsageDb (db share : String)
  | grantUsageSchema (db schema share : String)
  | grantSelectView (db schema view share : String)
  | createWarehouse (name : String)
  | createDbFromShare (db providerId share : String)
  | grantImportedPrivs (db : String)
  | grantWarehouseUsage (wh : String)
  | useWarehouse (wh : String)
  | useDatabase (db : String)
  | useSchema (schema : String)
  | selectCount (view : String)
deriving DecidableEq

/-- The SQL text of each statement, as interpolated by the source
(lines 51, 96-102, 142, 196, 202-210, 216-221, 357, 364, 370-376, 382-390,
434-440, 445-448, 453-457, 480-487). -/
def Stmt.sql : Stmt → String
  | .showManagedAccounts n => "SHOW MANAGED ACCOUNTS LIKE '" ++ n ++ "'"
  | .createManagedAccount n u p =>
      "CREATE MANAGED ACCOUNT " ++ n ++ " TYPE = READER ADMIN_NAME = '" ++ u
        ++ "' ADMIN_PASSWORD = '" ++ p
        ++ "' COMMENT = 'Automated reader account for EXCLUDEDLISTS share'"
  | .alterShareAddAccount s l => "ALTER SHARE " ++ s ++ " ADD ACCOUNTS = " ++ l
  | .showUsers n => "SHOW USERS LIKE '" ++ n ++ "'"
  | .createUser n pw wh e =>
      "CREATE USER " ++ n ++ " LOGIN_NAME = '" ++ n ++ "' PASSWORD = '" ++ pw
        ++ "' MUST_CHANGE_PASSWORD = TRUE DEFAULT_ROLE = 'PUBLIC'"
        ++ " DEFAULT_WAREHOUSE = '" ++ wh ++ "' EMAIL = '" ++ e ++ "'"
  | .alterUser n e wh =>
      "ALTER USER " ++ n ++ " SET EMAIL = '" ++ e ++ "', DEFAULT_WAREHOUSE = '"
        ++ wh ++ "', DEFAULT_ROLE = 'PUBLIC'"
  | .selectCurrentAccount => "SELECT CURRENT_ACCOUNT()"
  | .createSchema db sc => "CREATE SCHEMA IF NOT EXISTS " ++ db ++ "." ++ sc
  | .createSecureView db sc v t w =>
      "CREATE OR REPLACE SECURE VIEW " ++ db ++ "." ++ sc ++ "." ++ v
        ++ " AS SELECT * FROM " ++ db ++ ".PUBLIC." ++ t
        ++ (if w = "" then "" else " " ++ w)
  | .createShare s => "CREATE OR REPLACE SHARE " ++ s
  | .grantUsageDb db s => "GRANT USAGE ON DATABASE " ++ db ++ " TO SHARE " ++ s
  | .grantUsageSchema db sc s =>
      "GRANT USAGE ON SCHEMA " ++ db ++ "." ++ sc ++ " TO SHARE " ++ s
  | .grantSelectView db sc v s =>
      "GRANT SELECT ON VIEW " ++ db ++ "." ++ sc ++ "." ++ v ++ " TO SHARE " ++ s
  | .createWarehouse wh =>
      "CREATE OR REPLACE WAREHOUSE " ++ wh ++ " WAREHOUSE_SIZE = 'XSMALL'"
        ++ " AUTO_SUSPEND = 60 AUTO_RESUME = TRUE INITIALLY_SUSPENDED = TRUE"
  | .createDbFromShare db pid s =>
      "CREATE OR REPLACE DATABASE " ++ db ++ " FROM SHARE " ++ pid ++ "." ++ s
  | .grantImportedPrivs db =>
      "GRANT IMPORTED PRIVILEGES ON DATABASE " ++ db ++ " TO ROLE PUBLIC"
  | .grantWarehouseUsage wh =>
      "GRANT USAGE ON WAREHOUSE " ++ wh ++ " TO ROLE PUBLIC"
  | .useWarehouse wh => "USE WAREHOUSE " ++ wh
  | .useDatabase db => "USE DATABASE " ++ db
  | .useSchema sc => "USE SCHEMA " ++ sc
  | .selectCount v => "SELECT COUNT(*) FROM " ++ v

/-- SHOW and SELECT statements only read; everything else mutates remote
state. -/
def isMutating : Stmt → Bool
  | .showManagedAccounts _ => false
  | .showUsers _ => false
  | .selectCurrentAccount => false
  | .selectCount _ => false
  | _ => true

/-- The statement kinds whose rendered SQL carries a password: CREATE USER
sets PASSWORD, CREATE MANAGED ACCOUNT sets ADMIN_PASSWORD. No other
statement shape in the source interpolates a password. -/
def passwordBearing : Stmt → Bool
  | .createManagedAccount _ _ _ => true
  | .createUser _ _ _ _ => true
  | _ => false

/-! ## The effect monad

A database response is either a row set (fetchall result; DDL successes
carry an irrelevant empty row set) or a raised Python exception, which is
either snowflake ProgrammingError (the only class the source catches) or
any other exception. -/

inductive PyExc
  | prog (msg : String)
  | other (msg : String)
deriving DecidableEq

inductive DBResp
  | rows (rs : List (List String))
  | err (e : PyExc)
deriving DecidableEq

/-- A recorded e-mail attempt (the message send_credentials_email builds
and hands to smtplib). -/
structure EmailAttempt where
  host : String
  port : Nat
  mode : TlsMode
  fromAddr : String
  toAddr : String
  userName : String
  tempPassword : String
  loginUrl : String
deriving DecidableEq

/-- Interpreter state: execution counter for the response oracle, the trace
of executed statements, the log lines, the e-mail attempts, and a count of
send_credentials_email invocations. -/
structure SnapState where
  k : Nat
  trace : List Stmt
  logs : List String
  emails : List EmailAttempt
  emailCalls : Nat
deriving DecidableEq

def initState : SnapState := ⟨0, [], [], [], 0⟩

/-- Environment: the oracle giving the database response to the i-th
executed statement, plus success flags for the two connections and the
SMTP send. -/
structure Env where
  resp : Nat → Stmt → DBResp
  providerConnectOk : Bool := true
  readerConnectOk : Bool := true
  smtpSendOk : Bool := true

/-- Result of running a fragment: normal return, sys.exit(code), or an
uncaught Python exception. -/
inductive Res (α : Type)
  | ok (a : α) (s : SnapState)
  | exit (code : Nat) (s : SnapState)
  | exc (e : PyExc) (s : SnapState)
deriving DecidableEq

def M (α : Type) : Type := Env → SnapState → Res α

def M.pure (a : α) : M α := fun _ s => .ok a s

def M.bind (m : M α) (f : α → M β) : M β := fun env s =>
  match m env s with
  | .ok a s2 => f a env s2
  | .exit c s2 => .exit c s2
  | .exc e s2 => .exc e s2

instance : Monad M where
  pure := M.pure
  bind := M.bind

/-- pureM, identical to pure, kept as a plain name for simp unfolding. -/
def pureM (a : α) : M α := M.pure a

theorem run_bind (m : M α) (f : α → M β) (env : Env) (s : SnapState) :
    (m >>= f) env s =
      match m env s with
      | .ok a s2 => f a env s2
      | .exit c s2 => .exit c s2
      | .exc e s2 => .exc e s2 := rfl

/-- print-based log line (the log helper at line 20). -/
def logM (msg : String) : M Unit := fun _ s =>
  .ok () { s with logs := s.logs ++ [msg] }

/-- sys.exit(code). -/
def exitM (code : Nat) : M α := fun _ s => .exit code s

/-- raise an exception. -/
def raiseM (e : PyExc) : M α := fun _ s => .exc e s

/-- cur.execute followed by cur.fetchall: consumes one oracle response,
records the statement, returns the rows or raises. -/
def execFetch (st : Stmt) : M (List (List String)) := fun env s =>
  match env.resp s.k st with
  | .rows rs => .ok rs { s with k := s.k + 1, trace := s.trace ++ [st] }
  | .err e => .exc e { s with k := s.k + 1, trace := s.trace ++ [st] }

/-- cur.execute with the result set unused. -/
def execStmt (st : Stmt) : M Unit := fun env s =>
  match env.resp s.k st with
  | .rows _ => .ok () { s with k := s.k + 1, trace := s.trace ++ [st] }
  | .err e => .exc e { s with k := s.k + 1, trace := s.trace ++ [st] }

/-- `try: body except ProgrammingError as e: handler(str(e))` — only
ProgrammingError is caught; exits and other exceptions pass through. -/
def tryProg (body : M α) (handler : String → M α) : M α := fun env s =>
  match body env s with
  | .exc (.prog m) s2 => handler m env s2
  | r => r

/-- `try: body finally: fin` — fin runs on every exit path and the body's
outcome is then propagated (Python semantics for a non-raising finally). -/
def withFinally (body : M α) (fin : M Unit) : M α := fun env s =>
  match body env s with
  | .ok a s2 =>
    (match fin env s2 with
     | .ok _ s3 => .ok a s3
     | .exit c s3 => .exit c s3
     | .exc e s3 => .exc e s3)
  | .exit c s2 =>
    (match fin env s2 with
     | .ok _ s3 => .exit c s3
     | .exit c2 s3 => .exit c2 s3
     | .exc e s3 => .exc e s3)
  | .exc e s2 =>
    (match fin env s2 with
     | .ok _ s3 => .exc e s3
     | .exit c2 s3 => .exit c2 s3
     | .exc e2 s3 => .exc e2 s3)

/-- Python `row[i]` on a fetched row: IndexError when out of range. -/
def rowIndex (row : List String) (i : Nat) : M String :=
  match row[i]? with
  | some v => pureM v
  | none => raiseM (.other "IndexError")

/-- Python `cur.fetchone()[0]` applied to the already-fetched row set:
fetchone yields the first row or None; subscripting None raises TypeError. -/
def fetchone0 (rows : List (List String)) : M String :=
  match rows with
  | [] => raiseM (.other "TypeError")
  | r :: _ => rowIndex r 0

/-- Result-state accessors used in theorem statements. -/
def resState : Res α → SnapState
  | .ok _ s => s
  | .exit _ s => s
  | .exc _ s => s

inductive ResKind
  | ok
  | exited (code : Nat)
  | raised (e : PyExc)
deriving DecidableEq

def resKind : Res α → ResKind
  | .ok _ _ => .ok
  | .exit c _ => .exited c
  | .exc e _ => .raised e

def resVal : Res α → Option α
  | .ok a _ => some a
  | _ => none

def resTrace (r : Res α) : List Stmt := (resState r).trace

def resLogs (r : Res α) : List String := (resState r).logs

def resEmails (r : Res α) : List EmailAttempt := (resState r).emails

def resEmailCalls (r : Res α) : Nat := (resState r).emailCalls

/-! ## get_managed_account / ensure_managed_account (lines 38-133) -/

structure AccountInfo where
  account_name : String
  account_locator : String
  account_url : String
deriving DecidableEq

/-- get_managed_account (lines 38-76): SHOW MANAGED ACCOUNTS LIKE name,
none when no rows, else row[0]/row[3]/row[5] of the first row. -/
def get_managed_account (account_name : String) : M (Option AccountInfo) := do
  logM ("SHOW MANAGED ACCOUNTS LIKE '" ++ account_name ++ "' ...")
  let rows ← execFetch (.showManagedAccounts account_name)
  match rows with
  | [] => pureM none
  | row :: _ => do
    let n ← rowIndex row 0
    let l ← rowIndex row 3
    let u ← rowIndex row 5
    logM ("Found managed account row: name=" ++ n ++ ", locator=" ++ l
      ++ ", url=" ++ u)
    pureM (some ⟨n, l, u⟩)

/-- The except-ProgrammingError handler of ensure_managed_account
(lines 104-124). Returns some info when it recovered; exits otherwise. -/
def emaCreateHandler (account_name : String) (msg : String) :
    M (Option AccountInfo) := do
  if strContains msg "already exists" then do
    logM ("CREATE MANAGED ACCOUNT says object already exists; assuming "
      ++ "managed account was created previously. Re-checking SHOW MANAGED "
      ++ "ACCOUNTS...")
    match ← get_managed_account account_name with
    | some info => do
      logM ("Using existing managed account locator "
        ++ info.account_locator ++ ".")
      pureM (some info)
    | none => do
      logM ("Name collision: object exists but not visible as managed "
        ++ "account. Either drop/rename that object or use a different "
        ++ "reader.account_name in config.yaml.")
      exitM 1
  else do
    logM ("ERROR creating managed account: " ++ msg)
    exitM 1

/-- ensure_managed_account (lines 79-133). In the try body, `pureM none`
signals fall-through to step 3 (the post-create sleep and re-lookup); the
handler signals its recovery result with some. time.sleep(5) has no
observable effect in the model. -/
def ensure_managed_account (account_name adminUser adminPassword : String) :
    M AccountInfo := do
  match ← get_managed_account account_name with
  | some info => do
    logM ("Managed account '" ++ account_name ++ "' already exists. "
      ++ "Using locator " ++ info.account_locator ++ ".")
    pureM info
  | none => do
    logM ("Managed account '" ++ account_name ++ "' not found. Creating...")
    let r ← tryProg
      (do
        execStmt (.createManagedAccount account_name adminUser adminPassword)
        logM "CREATE MANAGED ACCOUNT executed."
        pureM none)
      (emaCreateHandler account_name)
    match r with
    | some info => pureM info
    | none => do
      match ← get_managed_account account_name with
      | some info => pureM info
      | none => do
        logM ("ERROR: Managed account creation succeeded but not found in "
          ++ "SHOW MANAGED ACCOUNTS.")
        exitM 1

/-! ## ensure_share_has_account (lines 136-151) -/

def ensure_share_has_account (share_name locator : String) : M Unit := do
  logM ("Ensuring account " ++ locator ++ " is added to share "
    ++ share_name ++ "...")
  tryProg
    (do
      execStmt (.alterShareAddAccount share_name locator)
      logM ("Account " ++ locator ++ " added to share " ++ share_name ++ "."))
    (fun msg =>
      if strContains msg "cannot be added to this share" then
        logM ("Account " ++ locator ++ " already present in share "
          ++ share_name ++ "; continuing.")
      else do
        logM ("ERROR adding account to share: " ++ msg)
        exitM 1)

/-! ## ensure_reader_user (lines 177-223) -/

/-- A Python dict of strings, as the reader_user config section. -/
abbrev PyDict : Type := List (String × String)

def dictGet? (d : PyDict) (key : String) : Option String :=
  (List.find? (fun kv => kv.1 == key) d).map (fun kv => kv.2)

/-- Python `d[key]`: KeyError when absent. -/
def dictGetM (d : PyDict) (key : String) : M String :=
  match dictGet? d key with
  | some v => pureM v
  | none => raiseM (.other ("KeyError: " ++ key))

def dictIsEmpty (d : PyDict) : Bool :=
  match d with
  | [] => true
  | _ :: _ => false

structure UserResult where
  created : Bool
  name : Option String := none
  email : Option String := none
  temp_password : Option String := none
deriving DecidableEq

/-- ensure_reader_user (lines 177-223). `if not user_cfg` is true for a
missing section (None) and for an empty dict. The three key reads at
lines 189-191 happen before the SHOW USERS lookup. -/
def ensure_reader_user (user_cfg : Option PyDict) (default_wh : String) :
    M UserResult := do
  if (match user_cfg with | none => true | some d => dictIsEmpty d) then do
    logM "No reader_user section in config; skipping user creation."
    pureM { created := false }
  else do
    let d := user_cfg.getD []
    let name ← dictGetM d "name"
    let email ← dictGetM d "email"
    let temp_pw ← dictGetM d "temp_password"
    logM ("Ensuring reader user '" ++ name ++ "' exists...")
    let rows ← execFetch (.showUsers name)
    match rows with
    | [] => do
      logM ("User '" ++ name ++ "' not found. Creating...")
      execStmt (.createUser name temp_pw default_wh email)
      logM ("User '" ++ name ++ "' created with email " ++ email ++ ".")
      pureM { created := true, name := some name, email := some email,
              temp_password := some temp_pw }
    | _ :: _ => do
      logM ("User '" ++ name ++ "' already exists. Updating email and "
        ++ "default warehouse...")
      execStmt (.alterUser name email default_wh)
      logM ("User '" ++ name ++ "' updated (EMAIL=" ++ email
        ++ ", DEFAULT_WAREHOUSE=" ++ default_wh ++ ").")
      pureM { created := false, name := some name, email := some email }

/-! ## send_credentials_email (lines 226-285) -/

/-- send_credentials_email. Increments the invocation counter on entry;
skips (logged) when the host is missing or empty; otherwise records the
attempt with the derived port/mode and the sender fallback chain, and the
transport outcome (env.smtpSendOk) only selects between the success log and
the caught-and-logged warning — nothing raises. -/
def send_credentials_email (user_name user_email temp_password login_url :
    String) (smtp_cfg : SmtpCfg) : M Unit := fun env s =>
  let s := { s with emailCalls := s.emailCalls + 1 }
  if (smtp_cfg.host.getD "") = "" then
    .ok () { s with logs := s.logs
      ++ ["SMTP config missing or incomplete; skipping email notification."] }
  else
    let attempt : EmailAttempt :=
      { host := smtp_cfg.host.getD ""
        port := smtpPort smtp_cfg
        mode := smtpMode smtp_cfg
        fromAddr := pyOrStr smtp_cfg.fromAddr
          (pyOrStr smtp_cfg.user "no-reply@snowflake")
        toAddr := user_email
        userName := user_name
        tempPassword := temp_password
        loginUrl := login_url }
    if env.smtpSendOk then
      .ok () { s with
        emails := s.emails ++ [attempt]
        logs := s.logs ++ ["Credentials email sent to " ++ user_email ++ "."] }
    else
      .ok () { s with
        emails := s.emails ++ [attempt]
        logs := s.logs ++ ["WARNING: Failed to send credentials email to "
          ++ user_email ++ ": SMTPException"] }

/-! ## main (lines 290-496) -/

/-- One entry of data.objects (or the legacy single-object keys). -/
structure DataObj where
  shared_view_name : String
  source_table : String
  view_where : Option String
deriving DecidableEq

/-- The configuration, typed after the section/key extraction at lines
292-311 (reading those required keys is config parsing, treated as an
external collaborator; missing required sections are outside the model).
Optional parts keep their optionality: reader_user (line 294, .get),
data.objects (line 314, .get), the legacy object keys, smtp (line 465). -/
structure Config where
  provider_account : String
  provider_user : String
  provider_password : String
  provider_role : String
  reader_account_name : String
  reader_admin_user : String
  reader_admin_password : String
  reader_warehouse_name : String
  reader_db_name : String
  reader_user : Option PyDict
  share_name : String
  provider_database : String
  shared_schema : String
  data_objects : Option (List DataObj)
  legacy_shared_view_name : Option String
  legacy_source_table : Option String
  legacy_view_where : Option String
  smtp : Option SmtpCfg

/-- The legacy fallback at lines 318-325: the dict literal reads
data_cfg["shared_view_name"] then data_cfg["source_table"] (KeyError when
absent) and data_cfg.get("view_where"). -/
def legacyObjects (cfg : Config) : M (List DataObj) :=
  match cfg.legacy_shared_view_name with
  | none => raiseM (.other "KeyError: shared_view_name")
  | some v =>
    match cfg.legacy_source_table with
    | none => raiseM (.other "KeyError: source_table")
    | some t => pureM [⟨v, t, cfg.legacy_view_where⟩]

/-- Lines 314-325: use data.objects when it is a non-empty list, else the
legacy keys. -/
def resolveObjects (cfg : Config) : M (List DataObj) :=
  match cfg.data_objects with
  | some l => (match l with | [] => legacyObjects cfg | _ :: _ => pureM l)
  | none => legacyObjects cfg

/-- snowflake.connector.connect to the provider (lines 341-350): on failure
the error is logged and the run exits 1. -/
def providerConnect : M Unit := fun env s =>
  if env.providerConnectOk then .ok () s
  else .exit 1 { s with
    logs := s.logs ++ ["ERROR: Failed to connect to provider account."] }

/-- connect to the reader account (lines 417-426). -/
def readerConnect : M Unit := fun env s =>
  if env.readerConnectOk then .ok () s
  else .exit 1 { s with
    logs := s.logs ++ ["ERROR: Failed to connect to reader account."] }

/-- Sequential for-loop over a list. -/
def mForEach (l : List α) (f : α → M Unit) : M Unit :=
  match l with
  | [] => pureM ()
  | a :: t => do
    f a
    mForEach t f

/-- The provider-side try body (lines 355-406): returns the pair
(provider_share_account_id, account_url) carried into the reader phase. -/
def providerPhase (cfg : Config) (objects : List DataObj) :
    M (String × String) := do
  let rows ← execFetch .selectCurrentAccount
  let pid ← fetchone0 rows
  logM ("Provider share account identifier (CURRENT_ACCOUNT) = " ++ pid)
  logM "Ensuring shared schema and secure view(s) exist..."
  execStmt (.createSchema cfg.provider_database cfg.shared_schema)
  mForEach objects (fun obj => do
    execStmt (.createSecureView cfg.provider_database cfg.shared_schema
      obj.shared_view_name obj.source_table (normalize_where obj.view_where))
    logM ("Secure view " ++ cfg.provider_database ++ "." ++ cfg.shared_schema
      ++ "." ++ obj.shared_view_name ++ " is ready."))
  logM ("Ensuring share " ++ cfg.share_name ++ " exists with proper grants...")
  execStmt (.createShare cfg.share_name)
  execStmt (.grantUsageDb cfg.provider_database cfg.share_name)
  execStmt (.grantUsageSchema cfg.provider_database cfg.shared_schema
    cfg.share_name)
  mForEach objects (fun obj =>
    execStmt (.grantSelectView cfg.provider_database cfg.shared_schema
      obj.shared_view_name cfg.share_name))
  logM "Share and privileges ensured."
  let acct_info ← ensure_managed_account cfg.reader_account_name
    cfg.reader_admin_user cfg.reader_admin_password
  logM ("Using reader managed account: locator=" ++ acct_info.account_locator
    ++ ", url=" ++ acct_info.account_url)
  ensure_share_has_account cfg.share_name acct_info.account_locator
  pureM (pid, acct_info.account_url)

/-- The reader-side try body (lines 431-489). -/
def readerPhase (cfg : Config) (objects : List DataObj)
    (pid account_url : String) : M Unit := do
  logM ("Ensuring warehouse " ++ cfg.reader_warehouse_name
    ++ " exists in reader account...")
  execStmt (.createWarehouse cfg.reader_warehouse_name)
  logM "Warehouse ensured."
  logM ("Ensuring database " ++ cfg.reader_db_name
    ++ " FROM SHARE is created in reader account...")
  execStmt (.createDbFromShare cfg.reader_db_name pid cfg.share_name)
  logM "Shared database ensured."
  logM "Applying grants in reader account (idempotent)..."
  execStmt (.grantImportedPrivs cfg.reader_db_name)
  execStmt (.grantWarehouseUsage cfg.reader_warehouse_name)
  let user_result ← ensure_reader_user cfg.reader_user
    cfg.reader_warehouse_name
  (if user_result.created then
    match user_result.name, user_result.email, user_result.temp_password with
    | some n, some e, some pw =>
      send_credentials_email n e pw account_url (cfg.smtp.getD {})
    | _, _, _ => raiseM (.other "KeyError")
  else pureM ())
  logM "Running test query in reader account..."
  execStmt (.useWarehouse cfg.reader_warehouse_name)
  execStmt (.useDatabase cfg.reader_db_name)
  execStmt (.useSchema cfg.shared_schema)
  mForEach objects (fun obj => do
    let rows ← execFetch (.selectCount obj.shared_view_name)
    let count ← fetchone0 rows
    logM ("Test query OK. Row count from view " ++ obj.shared_view_name
      ++ ": " ++ count))
  pureM ()

/-- main (lines 290-496). load_config is external: main takes the already
parsed Config. Both cursor phases sit inside try/finally blocks whose
finally closes the connection (observable only as the log line). -/
def main (cfg : Config) : M Unit := do
  let objects ← resolveObjects cfg
  logM ("Connecting to provider account '" ++ cfg.provider_account ++ "' as "
    ++ cfg.provider_user ++ " with role " ++ cfg.provider_role ++ "...")
  providerConnect
  logM "Connected to provider."
  let pidUrl ← withFinally (providerPhase cfg objects)
    (logM "Closed provider connection.")
  let reader_ident := account_identifier_from_url pidUrl.2
  logM ("Connecting to reader account '" ++ reader_ident ++ "' as "
    ++ cfg.reader_admin_user ++ "...")
  readerConnect
  logM "Connected to reader account."
  withFinally (readerPhase cfg objects pidUrl.1 pidUrl.2)
    (logM "Closed reader connection.")
  logM ("DONE. Reader account, share, warehouse, DB, and reader user are "
    ++ "fully provisioned and idempotent.")

/-! ## Statement classifiers and a fully successful environment -/

def isCreateSecureView : Stmt → Bool
  | .createSecureView _ _ _ _ _ => true
  | _ => false

def isGrantSelectView : Stmt → Bool
  | .grantSelectView _ _ _ _ => true
  | _ => false

def isSelectCount : Stmt → Bool
  | .selectCount _ => true
  | _ => false

/-- An environment in which every statement succeeds: the managed account
is already visible (one six-column row), the reader user already exists,
SELECT CURRENT_ACCOUNT() yields pid, and each smoke-test count query on
view v yields g v. -/
def happyEnv (a0 a1 a2 a3 a4 a5 pid : String) (g : String → String) : Env :=
  { resp := fun _ st =>
      match st with
      | .showManagedAccounts _ => .rows [[a0, a1, a2, a3, a4, a5]]
      | .showUsers _ => .rows [["present"]]
      | .selectCurrentAccount => .rows [[pid]]
      | .selectCount v => .rows [[g v]]
      | _ => .rows [] }

/-- A concrete configuration with two data objects, used by the witnesses. -/
def cfgDemo : Config :=
  { provider_account := "PACC"
    provider_user := "PU"
    provider_password := "PP"
    provider_role := "R"
    reader_account_name := "RDR"
    reader_admin_user := "AU"
    reader_admin_password := "AP"
    reader_warehouse_name := "WH"
    reader_db_name := "RDB"
    reader_user := none
    share_name := "SH"
    provider_database := "PDB"
    shared_schema := "SS"
    data_objects := some [⟨"V1", "T1", none⟩, ⟨"V2", "T2", some "x > 1"⟩]
    legacy_shared_view_name := none
    legacy_source_table := none
    legacy_view_where := none
    smtp := none }

/-! ## Helper lemmas -/

lemma leadsWith_append_self (p q : List Char) : leadsWith p (p ++ q) = true := by
  induction p with
  | nil => rfl
  | cons a as ih => simp [leadsWith, ih]

/-- Prepending "WHERE " always passes the source's case-insensitive
where-prefix test. -/
lemma whereTestStr_WHERE_append (v : String) :
    whereTestStr ("WHERE " ++ v) = true := by
  unfold whereTestStr
  simp only [String.toList, String.data_append, List.map_append]
  have h2 : (List.map lowerChar "WHERE ".data) = "where ".data := by decide
  rw [h2]
  have h3 : "where ".data = 'w' :: 'h' :: 'e' :: 'r' :: 'e' :: ' ' :: [] := by
    decide
  rw [h3]
  simp only [List.cons_append, lstripL]
  rw [show isPyWS 'w' = false by decide]
  simp only [Bool.false_eq_true, if_false]
  have := leadsWith_append_self ('w' :: 'h' :: 'e' :: 'r' :: 'e' :: ' ' :: [])
    (List.map lowerChar v.data)
  simpa using this

/-! ## Claims -/

/-- C1: ensure_managed_account first looks the account up and, when found,
returns the row's name/locator/url without issuing any mutating statement;
on a miss it issues the creation request; when the creation fails with a
ProgrammingError containing "already exists" it re-runs the lookup and
returns that result; and when that re-run still finds nothing it exits 1
with a diagnostic naming reader.account_name. -/
theorem c1_ensure_managed_account (env : Env) (n u p : String) :
    (∀ r0 r1 r2 r3 r4 r5 more,
      env.resp 0 (.showManagedAccounts n)
        = .rows ([r0, r1, r2, r3, r4, r5] :: more) →
      resVal (ensure_managed_account n u p env initState)
        = some ⟨r0, r3, r5⟩ ∧
      resTrace (ensure_managed_account n u p env initState)
        = [.showManagedAccounts n] ∧
      ∀ st ∈ resTrace (ensure_managed_account n u p env initState),
        isMutating st = false) ∧
    (env.resp 0 (.showManagedAccounts n) = .rows [] →
      (resTrace (ensure_managed_account n u p env initState)).get? 1
        = some (.createManagedAccount n u p)) ∧
    (∀ m r0 r1 r2 r3 r4 r5 more,
      env.resp 0 (.showManagedAccounts n) = .rows [] →
      env.resp 1 (.createManagedAccount n u p) = .err (.prog m) →
      strContains m "already exists" = true →
      env.resp 2 (.showManagedAccounts n)
        = .rows ([r0, r1, r2, r3, r4, r5] :: more) →
      resVal (ensure_managed_account n u p env initState)
        = some ⟨r0, r3, r5⟩ ∧
      resTrace (ensure_managed_account n u p env initState)
        = [.showManagedAccounts n, .createManagedAccount n u p,
           .showManagedAccounts n]) ∧
    (∀ m,
      env.resp 0 (.showManagedAccounts n) = .rows [] →
      env.resp 1 (.createManagedAccount n u p) = .err (.prog m) →
      strContains m "already exists" = true →
      env.resp 2 (.showManagedAccounts n) = .rows [] →
      resKind (ensure_managed_account n u p env initState) = .exited 1 ∧
      ∃ lg ∈ resLogs (ensure_managed_account n u p env initState),
        strContains lg "reader.account_name" = true) := by
  refine ⟨?_, ?_, ?_, ?_⟩
  · intro r0 r1 r2 r3 r4 r5 more h0
    simp [ensure_managed_account, get_managed_account, emaCreateHandler,
      tryProg, run_bind, logM, execFetch, execStmt, rowIndex, h0, initState,
      resVal, resTrace, resState, pureM, M.pure, isMutating]
  · intro h0
    rcases h1 : env.resp 1 (.createManagedAccount n u p) with rs1 | e1
    · rcases h2 : env.resp 2 (.showManagedAccounts n) with rs2 | e2
      · rcases rs2 with _ | ⟨row, rest⟩
        · simp [ensure_managed_account, get_managed_account, emaCreateHandler,
            tryProg, run_bind, logM, execFetch, execStmt, rowIndex, h0, h1,
            h2, initState, resTrace, resState, pureM, M.pure, exitM]
        · rcases h3 : row[0]? with _ | v0 <;>
          rcases h4 : row[3]? with _ | v3 <;>
          rcases h5 : row[5]? with _ | v5 <;>
            simp [ensure_managed_account, get_managed_account,
              emaCreateHandler, tryProg, run_bind, logM, execFetch, execStmt,
              rowIndex, h0, h1, h2, h3, h4, h5, initState, resTrace, resState,
              pureM, M.pure, exitM, raiseM]
      · simp [ensure_managed_account, get_managed_account, emaCreateHandler,
          tryProg, run_bind, logM, execFetch, execStmt, rowIndex, h0, h1, h2,
          initState, resTrace, resState, pureM, M.pure, exitM]
    · rcases e1 with m | m
      · by_cases hm : strContains m "already exists" = true
        · rcases h2 : env.resp 2 (.showManagedAccounts n) with rs2 | e2
          · rcases rs2 with _ | ⟨row, rest⟩
            · simp [ensure_managed_account, get_managed_account,
                emaCreateHandler, tryProg, run_bind, logM, execFetch,
                execStmt, rowIndex, h0, h1, hm, h2, initState, resTrace,
                resState, pureM, M.pure, exitM]
            · rcases h3 : row[0]? with _ | v0 <;>
              rcases h4 : row[3]? with _ | v3 <;>
              rcases h5 : row[5]? with _ | v5 <;>
                simp [ensure_managed_account, get_managed_account,
                  emaCreateHandler, tryProg, run_bind, logM, execFetch,
                  execStmt, rowIndex, h0, h1, hm, h2, h3, h4, h5, initState,
                  resTrace, resState, pureM, M.pure, exitM, raiseM]
          · simp [ensure_managed_account, get_managed_account,
              emaCreateHandler, tryProg, run_bind, logM, execFetch, execStmt,
              rowIndex, h0, h1, hm, h2, initState, resTrace, resState, pureM,
              M.pure, exitM]
        · simp at hm
          simp [ensure_managed_account, get_managed_account, emaCreateHandler,
            tryProg, run_bind, logM, execFetch, execStmt, rowIndex, h0, h1,
            hm, initState, resTrace, resState, pureM, M.pure, exitM]
      · simp [ensure_managed_account, get_managed_account, emaCreateHandler,
          tryProg, run_bind, logM, execFetch, execStmt, rowIndex, h0, h1,
          initState, resTrace, resState, pureM, M.pure, exitM]
  · intro m r0 r1 r2 r3 r4 r5 more h0 h1 hm h2
    simp [ensure_managed_account, get_managed_account, emaCreateHandler,
      tryProg, run_bind, logM, execFetch, execStmt, rowIndex, h0, h1, hm, h2,
      initState, resVal, resTrace, resState, pureM, M.pure]
  · intro m h0 h1 hm h2
    refine ⟨?_, ?_⟩
    · simp [ensure_managed_account, get_managed_account, emaCreateHandler,
        tryProg, run_bind, logM, execFetch, execStmt, rowIndex, h0, h1, hm,
        h2, initState, resKind, resState, pureM, M.pure, exitM]
    · refine ⟨"Name collision: object exists but not visible as managed "
        ++ "account. Either drop/rename that object or use a different "
        ++ "reader.account_name in config.yaml.", ?_, by decide⟩
      simp [ensure_managed_account, get_managed_account, emaCreateHandler,
        tryProg, run_bind, logM, execFetch, execStmt, rowIndex, h0, h1, hm,
        h2, initState, resLogs, resState, pureM, M.pure, exitM]

/-- C1 witness: the already-exists recovery path at a concrete script —
miss, ProgrammingError "object already exists", then a successful re-run
lookup whose locator/url are returned. -/
theorem c1_witness :
    resVal (ensure_managed_account "RDR" "adm" "pw"
      { resp := fun k _ =>
          if k = 0 then .rows []
          else if k = 1 then .err (.prog "object already exists")
          else .rows [["A", "c", "r", "LOC", "t", "URL"]] } initState)
      = some ⟨"A", "LOC", "URL"⟩ :=
  ((c1_ensure_managed_account
    { resp := fun k _ =>
        if k = 0 then .rows []
        else if k = 1 then .err (.prog "object already exists")
        else .rows [["A", "c", "r", "LOC", "t", "URL"]] }
    "RDR" "adm" "pw").2.2.1 "object already exists"
    "A" "c" "r" "LOC" "t" "URL" [] rfl rfl (by decide) rfl).1

/-- C2: ensure_share_has_account returns normally exactly when the ALTER
SHARE ADD ACCOUNTS call either succeeds or raises a ProgrammingError whose
message contains "cannot be added to this share"; any other
ProgrammingError makes the run exit with code 1. -/
theorem c2_share_attachment_duplicate_tolerance (env : Env)
    (share loc : String) :
    (resKind (ensure_share_has_account share loc env initState) = .ok ↔
      (∃ rs, env.resp 0 (.alterShareAddAccount share loc) = .rows rs) ∨
      (∃ m, env.resp 0 (.alterShareAddAccount share loc) = .err (.prog m) ∧
        strContains m "cannot be added to this share" = true)) ∧
    (∀ m, env.resp 0 (.alterShareAddAccount share loc) = .err (.prog m) →
      strContains m "cannot be added to this share" = false →
      resKind (ensure_share_has_account share loc env initState)
        = .exited 1) := by
  constructor
  · rcases h : env.resp 0 (.alterShareAddAccount share loc) with rs | e
    · simp [ensure_share_has_account, tryProg, run_bind, logM, execStmt,
        initState, h, resKind]
    · rcases e with m | m
      · by_cases hc : strContains m "cannot be added to this share" = true
        · simp [ensure_share_has_account, tryProg, run_bind, logM, execStmt,
            initState, h, hc, resKind]
        · simp [ensure_share_has_account, tryProg, run_bind, logM, execStmt,
            initState, h, hc, resKind, exitM]
      · simp [ensure_share_has_account, tryProg, run_bind, logM, execStmt,
          initState, h, resKind]
  · intro m h hc
    simp [ensure_share_has_account, tryProg, run_bind, logM, execStmt,
      initState, h, hc, resKind, exitM]

/-- C2 witness: a non-matching ProgrammingError on the add is fatal with
exit code 1. -/
theorem c2_witness :
    resKind (ensure_share_has_account "S" "L"
      { resp := fun _ _ => .err (.prog "boom") } initState) = .exited 1 :=
  (c2_share_attachment_duplicate_tolerance
    { resp := fun _ _ => .err (.prog "boom") } "S" "L").2 "boom" rfl (by decide)

/-- C4: account_identifier_from_url satisfies the two spec vectors, and for
every input whose host portion lacks the ".snowflakecomputing.com" suffix
it returns the host portion unchanged (total, never fails). -/
theorem c4_account_identifier_from_url :
    account_identifier_from_url "https://orgx-acct1.snowflakecomputing.com"
      = "orgx-acct1" ∧
    account_identifier_from_url "orgx-acct1.snowflakecomputing.com/foo"
      = "orgx-acct1" ∧
    ∀ u, strContains (hostPortion u) ".snowflakecomputing.com" = false →
      account_identifier_from_url u = hostPortion u := by
  refine ⟨by decide, by decide, ?_⟩
  intro u h
  unfold account_identifier_from_url
  simp [h]

/-- C4 witness: the defensive fallback applied to a host without the fixed
suffix. -/
theorem c4_witness :
    strContains (hostPortion "https://myhost.example.com/path")
      ".snowflakecomputing.com" = false ∧
    account_identifier_from_url "https://myhost.example.com/path"
      = hostPortion "https://myhost.example.com/path" :=
  ⟨by decide, c4_account_identifier_from_url.2.2
    "https://myhost.example.com/path" (by decide)⟩

/-- C5: normalize_where maps None and "" to "", "x > 1" to "WHERE x > 1",
leaves "WHERE x > 1" (and lower-case "where x > 1") unchanged, and for
every input yields either "" or a string passing the source's own
case-insensitive where-prefix test, never prepending a second WHERE to an
input that already carries one. -/
theorem c5_normalize_where :
    normalize_where none = "" ∧
    normalize_where (some "") = "" ∧
    normalize_where (some "x > 1") = "WHERE x > 1" ∧
    normalize_where (some "WHERE x > 1") = "WHERE x > 1" ∧
    normalize_where (some "where x > 1") = "where x > 1" ∧
    ∀ s,
      (normalize_where (some s) = "" ∨
        whereTestStr (normalize_where (some s)) = true) ∧
      (whereTestStr (pyStrip s) = true → pyStrip s ≠ "" →
        normalize_where (some s) = pyStrip s) ∧
      (whereTestStr (pyStrip s) = false → pyStrip s ≠ "" →
        normalize_where (some s) = "WHERE " ++ pyStrip s) := by
  refine ⟨by decide, by decide, by decide, by decide, by decide, ?_⟩
  intro s
  refine ⟨?_, ?_, ?_⟩
  · unfold normalize_where
    by_cases h0 : pyStrip s = ""
    · simp [h0]
    · by_cases h1 : whereTestStr (pyStrip s)
      · simp [h0, h1]
      · simp [h0, h1, whereTestStr_WHERE_append]
  · intro h1 h0
    unfold normalize_where
    simp [h0, h1]
  · intro h1 h0
    unfold normalize_where
    simp [h0, h1]

/-- C5 witness: the single-WHERE guarantee applied at concrete inputs on
both branches. -/
theorem c5_witness :
    (whereTestStr (pyStrip "y = 2") = false ∧ pyStrip "y = 2" ≠ "" ∧
      normalize_where (some "y = 2") = "WHERE " ++ pyStrip "y = 2") ∧
    (whereTestStr (pyStrip "  wHeRe y = 2") = true ∧
      pyStrip "  wHeRe y = 2" ≠ "" ∧
      normalize_where (some "  wHeRe y = 2") = pyStrip "  wHeRe y = 2") :=
  ⟨⟨by decide, by decide,
      (c5_normalize_where.2.2.2.2.2 "y = 2").2.2 (by decide) (by decide)⟩,
    ⟨by decide, by decide,
      (c5_normalize_where.2.2.2.2.2 "  wHeRe y = 2").2.1 (by decide)
        (by decide)⟩⟩

/-- C6: the SMTP port and TLS mode derivation. use_ssl forces implicit TLS
on default port 465; otherwise use_tls (default true when the key is
absent) selects STARTTLS on default port 587; otherwise plaintext on
default port 25; and an explicitly configured port overrides the derived
default in every mode. -/
theorem c6_smtp_port_tls_derivation (c : SmtpCfg) :
    (smtpUseSSL c = true →
      smtpMode c = .implicitTLS ∧ (c.port = none → smtpPort c = 465)) ∧
    (smtpUseSSL c = false → smtpUseTLS c = true →
      smtpMode c = .startTLS ∧ (c.port = none → smtpPort c = 587)) ∧
    (smtpUseSSL c = false → smtpUseTLS c = false →
      smtpMode c = .plain ∧ (c.port = none → smtpPort c = 25)) ∧
    (c.use_tls = none → smtpUseSSL c = false → smtpUseTLS c = true) ∧
    (∀ p, c.port = some p → smtpPort c = p) := by
  refine ⟨?_, ?_, ?_, ?_, ?_⟩
  · intro h
    refine ⟨by simp [smtpMode, h], ?_⟩
    intro hp
    simp [smtpPort, h, hp]
  · intro h ht
    refine ⟨by simp [smtpMode, h, ht], ?_⟩
    intro hp
    simp [smtpPort, h, ht, hp]
  · intro h ht
    refine ⟨by simp [smtpMode, h, ht], ?_⟩
    intro hp
    simp [smtpPort, h, ht, hp]
  · intro h hs
    simp [smtpUseTLS, hs, h]
  · intro p hp
    simp [smtpPort, hp]

/-- C3: for a non-empty user config whose user already exists (SHOW USERS
returns rows), ensure_reader_user issues only the SHOW USERS lookup and the
ALTER USER statement setting EMAIL, DEFAULT_WAREHOUSE and DEFAULT_ROLE,
none of which is password-bearing, and returns created=false with no
temp_password in the result. -/
theorem c3_update_path_never_touches_password (env : Env) (d : PyDict)
    (wh n e p : String) (row : List String) (rest rs2 : List (List String))
    (hn : dictGet? d "name" = some n)
    (he : dictGet? d "email" = some e)
    (hp : dictGet? d "temp_password" = some p)
    (hd : dictIsEmpty d = false)
    (hrow : env.resp 0 (.showUsers n) = .rows (row :: rest))
    (halter : env.resp 1 (.alterUser n e wh) = .rows rs2) :
    resVal (ensure_reader_user (some d) wh env initState)
      = some { created := false, name := some n, email := some e } ∧
    resTrace (ensure_reader_user (some d) wh env initState)
      = [.showUsers n, .alterUser n e wh] ∧
    ∀ st ∈ resTrace (ensure_reader_user (some d) wh env initState),
      passwordBearing st = false := by
  simp [ensure_reader_user, run_bind, dictGetM, hn, he, hp, hd, logM,
    execFetch, execStmt, hrow, halter, initState, resVal, resTrace, resState,
    pureM, M.pure, passwordBearing]

/-- C3 witness: a concrete existing user is updated without any
password-bearing statement. -/
theorem c3_witness :
    resVal (ensure_reader_user
        (some [("name", "bob"), ("email", "b@x"), ("temp_password", "tp")])
        "WH" { resp := fun _ _ => .rows [["r"]] } initState)
      = some { created := false, name := some "bob", email := some "b@x" } ∧
    resTrace (ensure_reader_user
        (some [("name", "bob"), ("email", "b@x"), ("temp_password", "tp")])
        "WH" { resp := fun _ _ => .rows [["r"]] } initState)
      = [.showUsers "bob", .alterUser "bob" "b@x" "WH"] :=
  ⟨(c3_update_path_never_touches_password
      { resp := fun _ _ => .rows [["r"]] }
      [("name", "bob"), ("email", "b@x"), ("temp_password", "tp")]
      "WH" "bob" "b@x" "tp" ["r"] [] [["r"]]
      rfl rfl rfl rfl rfl rfl).1,
   (c3_update_path_never_touches_password
      { resp := fun _ _ => .rows [["r"]] }
      [("name", "bob"), ("email", "b@x"), ("temp_password", "tp")]
      "WH" "bob" "b@x" "tp" ["r"] [] [["r"]]
      rfl rfl rfl rfl rfl rfl).2.1⟩

/-- C9: ensure_reader_user reads name, email and temp_password before the
existence lookup: a non-empty config with name and email but no
temp_password raises KeyError before any statement is issued (even though
the update path never uses the password), and when all three keys are
present execution always reaches the SHOW USERS lookup. -/
theorem c9_temp_password_read_before_lookup (env : Env) (d : PyDict)
    (wh n e : String) :
    (dictIsEmpty d = false →
      dictGet? d "name" = some n →
      dictGet? d "email" = some e →
      dictGet? d "temp_password" = none →
      resKind (ensure_reader_user (some d) wh env initState)
        = .raised (.other "KeyError: temp_password") ∧
      resTrace (ensure_reader_user (some d) wh env initState) = []) ∧
    (∀ p, dictIsEmpty d = false →
      dictGet? d "name" = some n →
      dictGet? d "email" = some e →
      dictGet? d "temp_password" = some p →
      (resTrace (ensure_reader_user (some d) wh env initState)).get? 0
        = some (.showUsers n)) := by
  constructor
  · intro hd hn he hp
    simp [ensure_reader_user, run_bind, dictGetM, hn, he, hp, hd, logM,
      raiseM, initState, resKind, resTrace, resState, pureM, M.pure]
  · intro p hd hn he hp
    rcases h0 : env.resp 0 (.showUsers n) with rs | e0
    · rcases rs with _ | ⟨row, rest⟩
      · rcases h1 : env.resp 1 (.createUser n p wh e) with rs1 | e1 <;>
          simp [ensure_reader_user, run_bind, dictGetM, hn, he, hp, hd, logM,
            execFetch, execStmt, h0, h1, initState, resTrace, resState,
            pureM, M.pure]
      · rcases h1 : env.resp 1 (.alterUser n e wh) with rs1 | e1 <;>
          simp [ensure_reader_user, run_bind, dictGetM, hn, he, hp, hd, logM,
            execFetch, execStmt, h0, h1, initState, resTrace, resState,
            pureM, M.pure]
    · simp [ensure_reader_user, run_bind, dictGetM, hn, he, hp, hd, logM,
        execFetch, execStmt, h0, initState, resTrace, resState, pureM, M.pure]

/-- C9 witness: a config omitting temp_password faults with KeyError and no
statement issued, although the named user exists. -/
theorem c9_witness :
    resKind (ensure_reader_user (some [("name", "bob"), ("email", "b@x")])
        "WH" { resp := fun _ _ => .rows [["r"]] } initState)
      = .raised (.other "KeyError: temp_password") ∧
    resTrace (ensure_reader_user (some [("name", "bob"), ("email", "b@x")])
        "WH" { resp := fun _ _ => .rows [["r"]] } initState) = [] :=
  (c9_temp_password_read_before_lookup { resp := fun _ _ => .rows [["r"]] }
    [("name", "bob"), ("email", "b@x")] "WH" "bob" "b@x").1
    rfl rfl rfl rfl

/-- C10: the duplicate-tolerant recovery catches only ProgrammingError. A
non-ProgrammingError exception from the CREATE MANAGED ACCOUNT or the
ALTER SHARE call propagates out of the helper unhandled: no recovery, no
extra diagnostic log line, no exit. -/
theorem c10_only_programming_error_is_caught (env : Env)
    (n u p sh loc m : String) :
    (env.resp 0 (.showManagedAccounts n) = .rows [] →
      env.resp 1 (.createManagedAccount n u p) = .err (.other m) →
      resKind (ensure_managed_account n u p env initState)
        = .raised (.other m) ∧
      resTrace (ensure_managed_account n u p env initState)
        = [.showManagedAccounts n, .createManagedAccount n u p] ∧
      resLogs (ensure_managed_account n u p env initState)
        = ["SHOW MANAGED ACCOUNTS LIKE '" ++ n ++ "' ...",
           "Managed account '" ++ n ++ "' not found. Creating..."]) ∧
    (env.resp 0 (.alterShareAddAccount sh loc) = .err (.other m) →
      resKind (ensure_share_has_account sh loc env initState)
        = .raised (.other m) ∧
      resTrace (ensure_share_has_account sh loc env initState)
        = [.alterShareAddAccount sh loc] ∧
      resLogs (ensure_share_has_account sh loc env initState)
        = ["Ensuring account " ++ loc ++ " is added to share "
            ++ sh ++ "..."]) := by
  constructor
  · intro h0 h1
    simp [ensure_managed_account, get_managed_account, emaCreateHandler,
      tryProg, run_bind, logM, execFetch, execStmt, h0, h1, initState,
      resKind, resTrace, resLogs, resState, pureM, M.pure]
  · intro h0
    simp [ensure_share_has_account, tryProg, run_bind, logM, execStmt, h0,
      initState, resKind, resTrace, resLogs, resState, pureM, M.pure]

/-- C10 witness: a non-ProgrammingError from the share add propagates
uncaught. -/
theorem c10_witness :
    resKind (ensure_share_has_account "S" "L"
        { resp := fun _ _ => .err (.other "OperationalError") } initState)
      = .raised (.other "OperationalError") :=
  ((c10_only_programming_error_is_caught
      { resp := fun _ _ => .err (.other "OperationalError") }
      "n" "u" "p" "S" "L" "OperationalError").2 rfl).1

/-- C6 witness: explicit use_ssl with an explicit port, and the STARTTLS
default path. -/
theorem c6_witness :
    (smtpMode { use_ssl := some true, port := some 2525 } = .implicitTLS ∧
      smtpPort { use_ssl := some true, port := some 2525 } = 2525) ∧
    (smtpMode ({} : SmtpCfg) = .startTLS ∧ smtpPort ({} : SmtpCfg) = 587) :=
  ⟨⟨((c6_smtp_port_tls_derivation
        { use_ssl := some true, port := some 2525 }).1 (by decide)).1,
     (c6_smtp_port_tls_derivation
        { use_ssl := some true, port := some 2525 }).2.2.2.2 2525 rfl⟩,
   ⟨((c6_smtp_port_tls_derivation {}).2.1 (by decide) (by decide)).1,
     ((c6_smtp_port_tls_derivation {}).2.1 (by decide) (by decide)).2 rfl⟩⟩

/-- C7: a full run over a configuration whose data.objects list holds two
entries issues exactly two create-or-replace secure view statements, two
grant-select-to-share statements and two smoke-test count queries, one per
object in list order, and logs each count with its row count — proved for
every such configuration, both without a reader_user section and with one
whose three keys are present, under the fully successful environment. -/
theorem c7_two_object_full_run (cfg : Config) (o1 o2 : DataObj)
    (a0 a1 a2 a3 a4 a5 pid : String) (g : String → String)
    (hobj : cfg.data_objects = some [o1, o2]) :
    (cfg.reader_user = none →
      resKind (main cfg (happyEnv a0 a1 a2 a3 a4 a5 pid g) initState)
        = .ok ∧
      (resTrace (main cfg (happyEnv a0 a1 a2 a3 a4 a5 pid g)
          initState)).filter isCreateSecureView
        = [.createSecureView cfg.provider_database cfg.shared_schema
             o1.shared_view_name o1.source_table
             (normalize_where o1.view_where),
           .createSecureView cfg.provider_database cfg.shared_schema
             o2.shared_view_name o2.source_table
             (normalize_where o2.view_where)] ∧
      (resTrace (main cfg (happyEnv a0 a1 a2 a3 a4 a5 pid g)
          initState)).filter isGrantSelectView
        = [.grantSelectView cfg.provider_database cfg.shared_schema
             o1.shared_view_name cfg.share_name,
           .grantSelectView cfg.provider_database cfg.shared_schema
             o2.shared_view_name cfg.share_name] ∧
      (resTrace (main cfg (happyEnv a0 a1 a2 a3 a4 a5 pid g)
          initState)).filter isSelectCount
        = [.selectCount o1.shared_view_name,
           .selectCount o2.shared_view_name] ∧
      ("Test query OK. Row count from view " ++ o1.shared_view_name ++ ": "
          ++ g o1.shared_view_name)
        ∈ resLogs (main cfg (happyEnv a0 a1 a2 a3 a4 a5 pid g) initState) ∧
      ("Test query OK. Row count from view " ++ o2.shared_view_name ++ ": "
          ++ g o2.shared_view_name)
        ∈ resLogs (main cfg (happyEnv a0 a1 a2 a3 a4 a5 pid g) initState)) ∧
    (∀ d n e p, cfg.reader_user = some d →
      dictIsEmpty d = false →
      dictGet? d "name" = some n →
      dictGet? d "email" = some e →
      dictGet? d "temp_password" = some p →
      resKind (main cfg (happyEnv a0 a1 a2 a3 a4 a5 pid g) initState)
        = .ok ∧
      (resTrace (main cfg (happyEnv a0 a1 a2 a3 a4 a5 pid g)
          initState)).filter isCreateSecureView
        = [.createSecureView cfg.provider_database cfg.shared_schema
             o1.shared_view_name o1.source_table
             (normalize_where o1.view_where),
           .createSecureView cfg.provider_database cfg.shared_schema
             o2.shared_view_name o2.source_table
             (normalize_where o2.view_where)] ∧
      (resTrace (main cfg (happyEnv a0 a1 a2 a3 a4 a5 pid g)
          initState)).filter isGrantSelectView
        = [.grantSelectView cfg.provider_database cfg.shared_schema
             o1.shared_view_name cfg.share_name,
           .grantSelectView cfg.provider_database cfg.shared_schema
             o2.shared_view_name cfg.share_name] ∧
      (resTrace (main cfg (happyEnv a0 a1 a2 a3 a4 a5 pid g)
          initState)).filter isSelectCount
        = [.selectCount o1.shared_view_name,
           .selectCount o2.shared_view_name] ∧
      ("Test query OK. Row count from view " ++ o1.shared_view_name ++ ": "
          ++ g o1.shared_view_name)
        ∈ resLogs (main cfg (happyEnv a0 a1 a2 a3 a4 a5 pid g) initState) ∧
      ("Test query OK. Row count from view " ++ o2.shared_view_name ++ ": "
          ++ g o2.shared_view_name)
        ∈ resLogs (main cfg (happyEnv a0 a1 a2 a3 a4 a5 pid g) initState)) := by
  constructor
  · intro huser
    simp [main, resolveObjects, hobj, huser, providerConnect, readerConnect,
      withFinally, providerPhase, readerPhase, mForEach,
      ensure_managed_account, get_managed_account, emaCreateHandler, tryProg,
      ensure_share_has_account, ensure_reader_user, send_credentials_email,
      dictGetM, execFetch, execStmt, rowIndex, fetchone0, logM, run_bind,
      pureM, M.pure, initState, happyEnv, resKind, resTrace, resLogs,
      resState, isCreateSecureView, isGrantSelectView, isSelectCount,
      List.filter]
  · intro d n e p huser hd hn he hp
    simp [main, resolveObjects, hobj, huser, hd, hn, he, hp, providerConnect,
      readerConnect, withFinally, providerPhase, readerPhase, mForEach,
      ensure_managed_account, get_managed_account, emaCreateHandler, tryProg,
      ensure_share_has_account, ensure_reader_user, send_credentials_email,
      dictGetM, execFetch, execStmt, rowIndex, fetchone0, logM, run_bind,
      pureM, M.pure, initState, happyEnv, resKind, resTrace, resLogs,
      resState, isCreateSecureView, isGrantSelectView, isSelectCount,
      List.filter]

/-- C7 witness: the two-object demo configuration under the fully
successful environment. -/
theorem c7_witness :
    resKind (main cfgDemo (happyEnv "A" "c" "r" "LOC" "t" "URL" "PID"
        (fun _ => "5")) initState) = .ok ∧
    (resTrace (main cfgDemo (happyEnv "A" "c" "r" "LOC" "t" "URL" "PID"
        (fun _ => "5")) initState)).filter isCreateSecureView
      = [.createSecureView "PDB" "SS" "V1" "T1" (normalize_where none),
         .createSecureView "PDB" "SS" "V2" "T2"
           (normalize_where (some "x > 1"))] ∧
    (resTrace (main cfgDemo (happyEnv "A" "c" "r" "LOC" "t" "URL" "PID"
        (fun _ => "5")) initState)).filter isGrantSelectView
      = [.grantSelectView "PDB" "SS" "V1" "SH",
         .grantSelectView "PDB" "SS" "V2" "SH"] ∧
    (resTrace (main cfgDemo (happyEnv "A" "c" "r" "LOC" "t" "URL" "PID"
        (fun _ => "5")) initState)).filter isSelectCount
      = [.selectCount "V1", .selectCount "V2"] ∧
    ("Test query OK. Row count from view " ++ "V1" ++ ": " ++ "5")
      ∈ resLogs (main cfgDemo (happyEnv "A" "c" "r" "LOC" "t" "URL" "PID"
        (fun _ => "5")) initState) ∧
    ("Test query OK. Row count from view " ++ "V2" ++ ": " ++ "5")
      ∈ resLogs (main cfgDemo (happyEnv "A" "c" "r" "LOC" "t" "URL" "PID"
        (fun _ => "5")) initState) :=
  (c7_two_object_full_run cfgDemo ⟨"V1", "T1", none⟩
    ⟨"V2", "T2", some "x > 1"⟩ "A" "c" "r" "LOC" "t" "URL" "PID"
    (fun _ => "5") rfl).1 rfl

/-- C8: with no reader_user section, ensure_reader_user issues no statement
and returns created=false (for every environment), and a full run under the
successful environment records no e-mail attempt and never even enters
send_credentials_email. -/
theorem c8_no_reader_user_no_email (cfg : Config) (o1 : DataObj)
    (a0 a1 a2 a3 a4 a5 pid : String) (g : String → String) :
    (∀ env wh,
      resVal (ensure_reader_user none wh env initState)
        = some { created := false } ∧
      resTrace (ensure_reader_user none wh env initState) = []) ∧
    (cfg.data_objects = some [o1] → cfg.reader_user = none →
      resKind (main cfg (happyEnv a0 a1 a2 a3 a4 a5 pid g) initState)
        = .ok ∧
      resEmails (main cfg (happyEnv a0 a1 a2 a3 a4 a5 pid g) initState)
        = [] ∧
      resEmailCalls (main cfg (happyEnv a0 a1 a2 a3 a4 a5 pid g) initState)
        = 0) := by
  constructor
  · intro env wh
    simp [ensure_reader_user, run_bind, logM, initState, resVal, resTrace,
      resState, pureM, M.pure]
  · intro hobj huser
    simp [main, resolveObjects, hobj, huser, providerConnect, readerConnect,
      withFinally, providerPhase, readerPhase, mForEach,
      ensure_managed_account, get_managed_account, emaCreateHandler, tryProg,
      ensure_share_has_account, ensure_reader_user, send_credentials_email,
      dictGetM, execFetch, execStmt, rowIndex, fetchone0, logM, run_bind,
      pureM, M.pure, initState, happyEnv, resKind, resEmails, resEmailCalls,
      resState]

/-- C8 witness: a one-object configuration without reader_user completes
with no e-mail attempt. -/
theorem c8_witness :
    resKind (main { cfgDemo with data_objects := some [⟨"V1", "T1", none⟩] }
        (happyEnv "A" "c" "r" "LOC" "t" "URL" "PID" (fun _ => "5"))
        initState) = .ok ∧
    resEmails (main { cfgDemo with data_objects := some [⟨"V1", "T1", none⟩] }
        (happyEnv "A" "c" "r" "LOC" "t" "URL" "PID" (fun _ => "5"))
        initState) = [] ∧
    resEmailCalls (main
        { cfgDemo with data_objects := some [⟨"V1", "T1", none⟩] }
        (happyEnv "A" "c" "r" "LOC" "t" "URL" "PID" (fun _ => "5"))
        initState) = 0 :=
  (c8_no_reader_user_no_email
    { cfgDemo with data_objects := some [⟨"V1", "T1", none⟩] }
    ⟨"V1", "T1", none⟩ "A" "c" "r" "LOC" "t" "URL" "PID"
    (fun _ => "5")).2 rfl rfl

end Provision



